import Mathlib

/-!
Shallow embedding of the reliability core of the moltbot control plane:
the model/provider fallback engine (`runWithModelFallback`), the session
store (`loadSessionStore`, `updateSessionStore`, `updateSessionStoreEntry`,
`updateLastRoute`) and the gateway RPC client settlement logic
(`callGateway`).  Pure functions are translated directly from the source;
stateful code is explicit state passing over `StoreState` /
`CallGatewayState`.  Helpers of this repository that are not part of the
provided sources (only their callers are) are modelled from the spec and
marked `Modelled from the spec:` in their doc comments.
-/

/- ============================================================ -/
/- Model fallback engine (model-fallback.ts)                    -/
/- ============================================================ -/

/-- A `(provider, model)` candidate, as in the source's `ModelCandidate`. -/
structure ModelCandidate where
  provider : String
  model : String
deriving DecidableEq

/-- A thrown JavaScript error value, restricted to the observable facets the
fallback engine inspects: its `name`, `message`, whether it is (already) a
failover error, whether it is a timeout error, whether the classifier can
coerce it to a failover error, and the described failover fields. -/
structure JSError where
  name : String
  message : String
  isFailover : Bool
  isTimeout : Bool
  coercible : Bool
  reason : Option String
  status : Option Nat
  code : Option String
deriving DecidableEq

deriving instance DecidableEq for Except

/-- `isAbortError` from the source: an object that is not a failover error
and whose `name` is exactly `"AbortError"`. -/
def isAbortError (e : JSError) : Bool :=
  !e.isFailover && e.name == "AbortError"

/-- `shouldRethrowAbort` from the source: an abort that is not a timeout. -/
def shouldRethrowAbort (e : JSError) : Bool :=
  isAbortError e && !e.isTimeout

/-- Modelled from the spec: `coerceToFailoverError` (failover-error.js is not
under src/).  The spec says the loop "classif[ies] the error; if it cannot be
classified as failover-eligible, rethrow immediately", and that on
single-candidate exhaustion the engine "rethrow[s] that original error
unwrapped"; classification is therefore modelled as returning the error
itself when it is, or can be classified as, a failover error, and `none`
otherwise. -/
def coerceToFailoverError (e : JSError) : Option JSError :=
  if e.isFailover || e.coercible then some e else none

/-- One recorded fallback attempt, as in the source's `FallbackAttempt`. -/
structure FallbackAttempt where
  provider : String
  model : String
  error : String
  reason : Option String
  status : Option Nat
  code : Option String
deriving DecidableEq

/-- The attempt recorded after a classified run failure; the `error`,
`reason`, `status` and `code` fields come from `describeFailoverError`
(modelled from the spec as reading the error's described facets). -/
def describeFailoverAttempt (c : ModelCandidate) (e : JSError) : FallbackAttempt :=
  ⟨c.provider, c.model, e.message, e.reason, e.status, e.code⟩

/-- The synthetic attempt recorded when every auth profile of a candidate's
provider is in cooldown (source: the cooldown pre-check of the loop). -/
def cooldownAttempt (c : ModelCandidate) : FallbackAttempt :=
  ⟨c.provider, c.model,
   "Provider " ++ c.provider ++ " is in cooldown (all profiles unavailable)",
   some "rate_limit", none, none⟩

/-- How one call of `runWithModelFallback` ends: a successful result, a
rethrown error value (`throw err` / `throw lastError`), or a freshly
constructed aggregate error (`throw new Error(message, { cause })`). -/
inductive FallbackOutcome (ρ : Type) where
  | ok (result : ρ) (provider : String) (model : String) (attempts : List FallbackAttempt)
  | thrown (e : JSError)
  | aggregate (message : String) (cause : Option JSError)
deriving DecidableEq

/-- Observable trace of one `runWithModelFallback` call: its outcome, the
candidates for which `run` was actually invoked (in order), and the final
attempts list. -/
structure FallbackRun (ρ : Type) where
  outcome : FallbackOutcome ρ
  calls : List ModelCandidate
  attempts : List FallbackAttempt
deriving DecidableEq

/-- One `"provider/model: message (reason)"` item of the aggregate summary. -/
def formatAttempt (a : FallbackAttempt) : String :=
  a.provider ++ "/" ++ a.model ++ ": " ++ a.error ++
    (match a.reason with
     | some r => " (" ++ r ++ ")"
     | none => "")

/-- The aggregate error message of the exhaustion path
(`All models failed (${attempts.length || candidates.length}): ${summary}`). -/
def aggregateMessage (total : Nat) (attempts : List FallbackAttempt) : String :=
  let n := if attempts.length = 0 then total else attempts.length
  let summary :=
    if attempts.length = 0 then "unknown"
    else String.intercalate " | " (attempts.map formatAttempt)
  "All models failed (" ++ toString n ++ "): " ++ summary

/-- The exhaustion tail of the loop: rethrow the last error when at most one
attempt was recorded and a run error exists, otherwise throw the aggregate. -/
def exhaustFallback {ρ : Type} (total : Nat) (attempts : List FallbackAttempt)
    (lastError : Option JSError) (calls : List ModelCandidate) : FallbackRun ρ :=
  match lastError with
  | some e =>
    if attempts.length ≤ 1 then ⟨.thrown e, calls, attempts⟩
    else ⟨.aggregate (aggregateMessage total attempts) (some e), calls, attempts⟩
  | none => ⟨.aggregate (aggregateMessage total attempts) none, calls, attempts⟩

/-- The cooldown pre-check of the loop: the provider has at least one
configured auth profile and none of them is available.
`resolveAuthProfileOrder` and `isProfileInCooldown` (auth-profiles.js) are
not under src/ and are modelled from the spec as the supplied `profiles`
list and `cooldown` predicate. -/
def allProfilesCoolingDown (profiles : String → List String) (cooldown : String → Bool)
    (provider : String) : Bool :=
  !(profiles provider).isEmpty && (profiles provider).all cooldown

/-- The candidate loop of `runWithModelFallback`, translated from the source:
cooldown pre-check, `run`, immediate return on success, abort rethrow,
classification, attempt recording, recursion, and the exhaustion tail.
`authStore` is whether `params.cfg` was supplied (the auth store exists). -/
def fallbackLoop {ρ : Type} (authStore : Bool) (profiles : String → List String)
    (cooldown : String → Bool) (run : String → String → Except JSError ρ) (total : Nat) :
    List ModelCandidate → List FallbackAttempt → Option JSError → List ModelCandidate →
    FallbackRun ρ
  | [], attempts, lastError, calls => exhaustFallback total attempts lastError calls
  | c :: rest, attempts, lastError, calls =>
    if authStore && allProfilesCoolingDown profiles cooldown c.provider then
      fallbackLoop authStore profiles cooldown run total rest
        (attempts ++ [cooldownAttempt c]) lastError calls
    else
      match run c.provider c.model with
      | .ok v => ⟨.ok v c.provider c.model attempts, calls ++ [c], attempts⟩
      | .error e =>
        if shouldRethrowAbort e then ⟨.thrown e, calls ++ [c], attempts⟩
        else
          match coerceToFailoverError e with
          | none => ⟨.thrown e, calls ++ [c], attempts⟩
          | some n =>
            fallbackLoop authStore profiles cooldown run total rest
              (attempts ++ [describeFailoverAttempt c n]) (some n) (calls ++ [c])

/-- `runWithModelFallback`, applied to the resolved candidate list (candidate
resolution itself reads configuration helpers that are not under src/). -/
def runWithModelFallback {ρ : Type} (authStore : Bool) (profiles : String → List String)
    (cooldown : String → Bool) (run : String → String → Except JSError ρ)
    (candidates : List ModelCandidate) : FallbackRun ρ :=
  fallbackLoop authStore profiles cooldown run candidates.length candidates [] none []

/- ============================================================ -/
/- Session store (session-store.ts)                             -/
/- ============================================================ -/

/-- A delivery context: `channel`, `to`, `accountId`, `threadId` (the
source's `to` field is named `toRecipient` here, `to` being a Lean
keyword). -/
structure DeliveryContext where
  channel : Option String := none
  toRecipient : Option String := none
  accountId : Option String := none
  threadId : Option String := none
deriving DecidableEq

/-- A session entry, restricted to the fields the verified operations read
or write.  `Option` fields model JSON keys that are either absent or hold a
string / number (a present non-string value behaves as absent for the
`typeof x === "string"` tests of the migration). -/
structure SessionEntry where
  sessionId : Option String := none
  updatedAt : Option Int := none
  channel : Option String := none
  provider : Option String := none
  lastChannel : Option String := none
  lastProvider : Option String := none
  groupChannel : Option String := none
  room : Option String := none
  chatType : Option String := none
  deliveryContext : Option DeliveryContext := none
  lastTo : Option String := none
  lastAccountId : Option String := none
  lastThreadId : Option String := none
deriving DecidableEq

/-- The empty session entry (all fields absent). -/
def emptySessionEntry : SessionEntry := {}

/-- The parsed session store file: a key-unique association of session keys
to entries (`Record<string, SessionEntry>`). -/
abbrev SessionStoreFile := List (String × SessionEntry)

/-- `store[key]` on the parsed store. -/
def storeLookup : SessionStoreFile → String → Option SessionEntry
  | [], _ => none
  | (k, v) :: rest, key => if k = key then some v else storeLookup rest key

/-- Removes every binding of `key` (helper for functional assignment). -/
def storeErase : SessionStoreFile → String → SessionStoreFile
  | [], _ => []
  | (k, v) :: rest, key =>
    if k = key then storeErase rest key else (k, v) :: storeErase rest key

/-- `store[key] = value` on the parsed store, functionally. -/
def storeInsert (st : SessionStoreFile) (key : String) (v : SessionEntry) : SessionStoreFile :=
  (key, v) :: storeErase st key

/-- First migration step of the loaded-store loop: `provider` → `channel`,
only when `channel` is not (a string) present. -/
def migrateChannel (e : SessionEntry) : SessionEntry :=
  if e.channel.isNone ∧ e.provider.isSome then
    { e with channel := e.provider, provider := none }
  else e

/-- Second migration step: `lastProvider` → `lastChannel`, only when
`lastChannel` is not present. -/
def migrateLastChannel (e : SessionEntry) : SessionEntry :=
  if e.lastChannel.isNone ∧ e.lastProvider.isSome then
    { e with lastChannel := e.lastProvider, lastProvider := none }
  else e

/-- Third migration step: `room` → `groupChannel` when `groupChannel` is
absent; otherwise a present `room` key is pruned (`else if ("room" in rec)
delete rec.room`). -/
def migrateRoom (e : SessionEntry) : SessionEntry :=
  if e.groupChannel.isNone ∧ e.room.isSome then
    { e with groupChannel := e.room, room := none }
  else if e.room.isSome then { e with room := none }
  else e

/-- The best-effort legacy-field migration applied to each loaded entry
(source: the migration loop of `loadSessionStore`). -/
def migrateSessionEntry (e : SessionEntry) : SessionEntry :=
  migrateRoom (migrateLastChannel (migrateChannel e))

/-- The migration loop applied to the whole parsed store. -/
def migrateStore (st : SessionStoreFile) : SessionStoreFile :=
  st.map (fun kv => (kv.1, migrateSessionEntry kv.2))

/-- Modelled from the spec: `normalizeSessionDeliveryFields`
(utils/delivery-context.js is not under src/).  Save "normalizes delivery
fields": the canonical `deliveryContext` (each field falling back to its
legacy mirror) with the legacy mirrors `lastChannel`/`lastTo`/
`lastAccountId`/`lastThreadId` kept in sync; the other fields are kept. -/
def normalizeSessionDeliveryFields (e : SessionEntry) : SessionEntry :=
  let ch := match e.deliveryContext.bind (fun d => d.channel) with
    | some v => some v
    | none => e.lastChannel
  let sto := match e.deliveryContext.bind (fun d => d.toRecipient) with
    | some v => some v
    | none => e.lastTo
  let acc := match e.deliveryContext.bind (fun d => d.accountId) with
    | some v => some v
    | none => e.lastAccountId
  let th := match e.deliveryContext.bind (fun d => d.threadId) with
    | some v => some v
    | none => e.lastThreadId
  { e with
    deliveryContext :=
      if ch = none ∧ sto = none ∧ acc = none ∧ th = none then none
      else some ⟨ch, sto, acc, th⟩,
    lastChannel := ch, lastTo := sto, lastAccountId := acc, lastThreadId := th }

/-- `normalizeSessionEntryDelivery` from the source: replace the delivery
fields of the entry by their normalized form (the source's sameness check
only avoids re-allocating an unchanged entry). -/
def normalizeSessionEntryDelivery (e : SessionEntry) : SessionEntry :=
  let n := normalizeSessionDeliveryFields e
  { e with
    deliveryContext := n.deliveryContext,
    lastChannel := n.lastChannel, lastTo := n.lastTo,
    lastAccountId := n.lastAccountId, lastThreadId := n.lastThreadId }

/-- `normalizeSessionStore` from the source. -/
def normalizeSessionStore (st : SessionStoreFile) : SessionStoreFile :=
  st.map (fun kv => (kv.1, normalizeSessionEntryDelivery kv.2))

/-- A read-cache entry (`SessionStoreCacheEntry`). -/
structure SessionStoreCacheEntry where
  store : SessionStoreFile
  loadedAt : Int
  mtimeMs : Option Int
deriving DecidableEq

/-- The state a store operation runs against: the parsed on-disk content
(missing/corrupt file folded into the empty store, as the source does), the
file's mtime, the process-local read cache for this path, the clock, the
cache TTL and enablement, and a counter of performed writes (used to state
frame properties; `saveSessionStoreUnlocked` increments it). -/
structure StoreState where
  disk : SessionStoreFile
  diskMtime : Option Int
  cache : Option SessionStoreCacheEntry
  now : Int
  ttl : Int
  cacheEnabled : Bool
  saves : Nat
deriving DecidableEq

/-- `loadSessionStore(storePath, { skipCache })`: return a valid cached
snapshot (TTL-fresh and mtime-unchanged) unless the cache is bypassed or
disabled; otherwise read the disk, apply the migrations, and cache the
result when caching is in effect.  `structuredClone` is the identity on
pure values. -/
def loadSessionStore (skipCache : Bool) (s : StoreState) : SessionStoreFile × StoreState :=
  let useCache := !skipCache && s.cacheEnabled
  let diskStore := migrateStore s.disk
  let populated : StoreState :=
    if useCache then { s with cache := some ⟨diskStore, s.now, s.diskMtime⟩ } else s
  match (if useCache then s.cache else none) with
  | some c =>
    if s.now - c.loadedAt ≤ s.ttl ∧ s.diskMtime = c.mtimeMs then (c.store, s)
    else (diskStore, populated)
  | none => (diskStore, populated)

/-- `saveSessionStoreUnlocked`: invalidate the cache, normalize the delivery
fields, and durably persist the store (the platform-specific write paths
all end with the serialized store on disk). -/
def saveSessionStoreUnlocked (s : StoreState) (store : SessionStoreFile) : StoreState :=
  { s with
    cache := none,
    disk := normalizeSessionStore store,
    diskMtime := some s.now,
    saves := s.saves + 1 }

/-- `updateSessionStore(storePath, mutator)` under its lock: re-read with
`skipCache: true`, run the mutator on that snapshot, persist, return the
mutator's result.  The mutator returns its result and the mutated store. -/
def updateSessionStore {α : Type} (s : StoreState)
    (mutator : SessionStoreFile → α × SessionStoreFile) : α × StoreState :=
  let (store, s1) := loadSessionStore true s
  let (result, store2) := mutator store
  (result, saveSessionStoreUnlocked s1 store2)

/-- A partial session entry (an updater's patch); `none` fields are absent
from the patch. -/
structure SessionPatch where
  sessionId : Option String := none
  updatedAt : Option Int := none
  channel : Option String := none
  groupChannel : Option String := none
  chatType : Option String := none
  deliveryContext : Option DeliveryContext := none
  lastChannel : Option String := none
  lastTo : Option String := none
  lastAccountId : Option String := none
  lastThreadId : Option String := none
deriving DecidableEq

/-- Modelled from the spec: `mergeSessionEntry` (sessions/types.js is not
under src/): "merges the updater's partial result onto the existing entry"
— fields present in the patch replace the existing entry's fields. -/
def mergeSessionEntry (existing : Option SessionEntry) (patch : SessionPatch) : SessionEntry :=
  let base := match existing with
    | some e => e
    | none => emptySessionEntry
  { base with
    sessionId := match patch.sessionId with
      | some v => some v
      | none => base.sessionId,
    updatedAt := match patch.updatedAt with
      | some v => some v
      | none => base.updatedAt,
    channel := match patch.channel with
      | some v => some v
      | none => base.channel,
    groupChannel := match patch.groupChannel with
      | some v => some v
      | none => base.groupChannel,
    chatType := match patch.chatType with
      | some v => some v
      | none => base.chatType,
    deliveryContext := match patch.deliveryContext with
      | some v => some v
      | none => base.deliveryContext,
    lastChannel := match patch.lastChannel with
      | some v => some v
      | none => base.lastChannel,
    lastTo := match patch.lastTo with
      | some v => some v
      | none => base.lastTo,
    lastAccountId := match patch.lastAccountId with
      | some v => some v
      | none => base.lastAccountId,
    lastThreadId := match patch.lastThreadId with
      | some v => some v
      | none => base.lastThreadId }

/-- `updateSessionStoreEntry({storePath, sessionKey, update})` under its
lock: re-read (without bypassing the read cache — the source calls
`loadSessionStore(storePath)` with no options), return `null` when the key
is absent, return the existing entry without saving when the updater
returns `null`, otherwise merge the patch and persist. -/
def updateSessionStoreEntry (s : StoreState) (key : String)
    (update : SessionEntry → Option SessionPatch) : Option SessionEntry × StoreState :=
  let (store, s1) := loadSessionStore false s
  match storeLookup store key with
  | none => (none, s1)
  | some existing =>
    match update existing with
    | none => (some existing, s1)
    | some patch =>
      let next := mergeSessionEntry (some existing) patch
      (some next, saveSessionStoreUnlocked s1 (storeInsert store key next))

/-- Modelled from the spec: `normalizeDeliveryContext`
(utils/delivery-context.js is not under src/) — drop a context that
carries no fields. -/
def normalizeDeliveryContext (d : Option DeliveryContext) : Option DeliveryContext :=
  match d with
  | none => none
  | some dc =>
    if dc.channel = none ∧ dc.toRecipient = none ∧ dc.accountId = none ∧ dc.threadId = none
    then none else some dc

/-- Modelled from the spec: `mergeDeliveryContext`
(utils/delivery-context.js is not under src/) — prefer the first context's
fields, filling in missing ones from the second. -/
def mergeDeliveryContext (a b : Option DeliveryContext) : Option DeliveryContext :=
  match a, b with
  | none, y => y
  | some x, none => some x
  | some x, some y =>
    some ⟨match x.channel with
          | some v => some v
          | none => y.channel,
          match x.toRecipient with
          | some v => some v
          | none => y.toRecipient,
          match x.accountId with
          | some v => some v
          | none => y.accountId,
          match x.threadId with
          | some v => some v
          | none => y.threadId⟩

/-- Modelled from the spec: `deliveryContextFromSession`
(utils/delivery-context.js is not under src/) — the entry's stored delivery
context, falling back to its legacy mirror fields. -/
def deliveryContextFromSession (e : Option SessionEntry) : Option DeliveryContext :=
  match e with
  | none => none
  | some entry =>
    match entry.deliveryContext with
    | some dc => some dc
    | none =>
      if entry.lastChannel = none ∧ entry.lastTo = none ∧
          entry.lastAccountId = none ∧ entry.lastThreadId = none then none
      else some ⟨entry.lastChannel, entry.lastTo, entry.lastAccountId, entry.lastThreadId⟩

/-- The result of `deriveSessionMetaPatch` (sessions/metadata.js is not
under src/).  Modelled from the spec: it derives session meta fields (group
channel, chat type) from the inbound context; it does not carry
`updatedAt`. -/
structure SessionMetaPatch where
  groupChannel : Option String := none
  chatType : Option String := none
deriving DecidableEq

/-- The `{ ...basePatch, ...metaPatch }` spread of `updateLastRoute`: meta
fields present in the meta patch override the base patch's. -/
def applySessionMetaPatch (base : SessionPatch) (m : SessionMetaPatch) : SessionPatch :=
  { base with
    groupChannel := match m.groupChannel with
      | some v => some v
      | none => base.groupChannel,
    chatType := match m.chatType with
      | some v => some v
      | none => base.chatType }

/-- `updateLastRoute` under its lock, translated from the source: re-read
(through the cache), merge the explicit and inline delivery contexts with
the session's stored one, normalize, build the base patch with
`updatedAt := max(existing?.updatedAt ?? 0, now)`, spread the meta patch
over it, merge onto the existing entry, persist.  `metaPatch` stands for
`deriveSessionMetaPatch`'s result (`none` when no `ctx` was supplied). -/
def updateLastRoute (s : StoreState) (key : String)
    (explicitDc : Option DeliveryContext) (inline : DeliveryContext)
    (metaPatch : Option SessionMetaPatch) : SessionEntry × StoreState :=
  let (store, s1) := loadSessionStore false s
  let existing := storeLookup store key
  let explicitContext := normalizeDeliveryContext explicitDc
  let inlineContext := normalizeDeliveryContext (some inline)
  let mergedInput := mergeDeliveryContext explicitContext inlineContext
  let merged := mergeDeliveryContext mergedInput (deliveryContextFromSession existing)
  let mdc : DeliveryContext := match merged with
    | some dc => dc
    | none => {}
  let normalized := normalizeSessionDeliveryFields
    { emptySessionEntry with deliveryContext := some mdc }
  let prevUpdated : Int := match existing with
    | some e => match e.updatedAt with
      | some u => u
      | none => 0
    | none => 0
  let basePatch : SessionPatch :=
    { updatedAt := some (max prevUpdated s1.now),
      deliveryContext := normalized.deliveryContext,
      lastChannel := normalized.lastChannel,
      lastTo := normalized.lastTo,
      lastAccountId := normalized.lastAccountId,
      lastThreadId := normalized.lastThreadId }
  let patch := match metaPatch with
    | some m => applySessionMetaPatch basePatch m
    | none => basePatch
  let next := mergeSessionEntry existing patch
  (next, saveSessionStoreUnlocked s1 (storeInsert store key next))

/- ============================================================ -/
/- Session resolver freshness (session resolution)              -/
/- ============================================================ -/

/-- Modelled from the spec: `evaluateSessionFreshness` (config/sessions.js
is not under src/): "entry is fresh iff `now - updatedAt <= resetWindow`". -/
def evaluateSessionFreshness (updatedAt now resetWindow : Int) : Bool :=
  decide (now - updatedAt ≤ resetWindow)

/-- The freshness judgment of `resolveSession` (source: `const fresh =
sessionEntry ? evaluateSessionFreshness({...}).fresh : false`); an entry
without a numeric `updatedAt` is never fresh. -/
def resolveSessionFresh (entry : Option SessionEntry) (now resetWindow : Int) : Bool :=
  match entry with
  | some e =>
    match e.updatedAt with
    | some u => evaluateSessionFreshness u now resetWindow
    | none => false
  | none => false

/- ============================================================ -/
/- Gateway RPC client settlement (callGateway)                  -/
/- ============================================================ -/

/-- How a `callGateway` promise settles: resolution with the payload or
rejection with an error message. -/
inductive GatewaySettle (τ : Type) where
  | value (v : τ)
  | failure (message : String)
deriving DecidableEq

/-- The mutable state of one `callGateway` promise executor: the `settled`
and `ignoreClose` flags and the settlement, if any. -/
structure CallGatewayState (τ : Type) where
  settled : Bool
  ignoreClose : Bool
  outcome : Option (GatewaySettle τ)
deriving DecidableEq

/-- The state before any event: not settled, closes not ignored, pending. -/
def initialCallGatewayState (τ : Type) : CallGatewayState τ := ⟨false, false, none⟩

/-- The events a pending `callGateway` promise can receive: the request
settling (the `onHelloOk` success and catch paths), a connection close
(`onClose`), and the operation-spanning timer firing. -/
inductive GatewayEvent (τ : Type) where
  | requestResolved (v : τ)
  | requestRejected (message : String)
  | close (code : Nat) (reason : String)
  | timeout
deriving DecidableEq

/-- `formatCloseError` from the source: the close code with its hint, the
trimmed close reason (or `"no close reason"`), and the diagnostic
connection-details message. -/
def formatCloseError (details : String) (code : Nat) (reason : String) : String :=
  let trimmed := reason.trim
  let reasonText := if trimmed = "" then "no close reason" else trimmed
  let hint :=
    if code = 1006 then "abnormal closure (no close frame)"
    else if code = 1000 then "normal closure"
    else ""
  let suffix := if hint = "" then "" else " " ++ hint
  "gateway closed (" ++ toString code ++ suffix ++ "): " ++ reasonText ++ "\n" ++ details

/-- `formatTimeoutError` from the source. -/
def formatTimeoutError (details : String) (timeoutMs : Nat) : String :=
  "gateway timeout after " ++ toString timeoutMs ++ "ms\n" ++ details

/-- The `stop` helper of `callGateway`: the first call settles the promise,
later calls are ignored. -/
def stopGateway {τ : Type} (s : CallGatewayState τ) (result : GatewaySettle τ) :
    CallGatewayState τ :=
  if s.settled then s else { s with settled := true, outcome := some result }

/-- One event handler of `callGateway`, translated from the source.
JavaScript runs each handler atomically (single-threaded), so the machine
steps one event at a time. -/
def callGatewayStep {τ : Type} (details : String) (timeoutMs : Nat)
    (s : CallGatewayState τ) : GatewayEvent τ → CallGatewayState τ
  | .requestResolved v => stopGateway { s with ignoreClose := true } (.value v)
  | .requestRejected m => stopGateway { s with ignoreClose := true } (.failure m)
  | .close code reason =>
    if s.settled || s.ignoreClose then s
    else stopGateway { s with ignoreClose := true }
      (.failure (formatCloseError details code reason))
  | .timeout =>
    stopGateway { s with ignoreClose := true } (.failure (formatTimeoutError details timeoutMs))

/- ============================================================ -/
/- Concrete fixtures for witnesses and counterexamples          -/
/- ============================================================ -/

/-- A candidate used in concrete scenarios. -/
def candA : ModelCandidate := ⟨"openai", "gpt"⟩

/-- A candidate used in concrete scenarios. -/
def candB : ModelCandidate := ⟨"anthropic", "claude"⟩

/-- A candidate used in concrete scenarios. -/
def candC : ModelCandidate := ⟨"google", "gemini"⟩

/-- A failover-eligible network error. -/
def errNet : JSError := ⟨"Error", "boom", true, false, false, some "network", some 500, none⟩

/-- A failover-eligible auth error. -/
def errAuth : JSError := ⟨"Error", "denied", true, false, false, some "auth", some 401, none⟩

/-- An explicit user cancellation: `AbortError`, not a timeout. -/
def errAbort : JSError := ⟨"AbortError", "aborted", false, false, false, none, none, none⟩

/-- A timeout surfaced with the `AbortError` name, classifiable as a
failover timeout. -/
def errTimeoutAbort : JSError :=
  ⟨"AbortError", "timed out", false, true, true, some "timeout", none, none⟩

/-- A run in which `candA` and `candB` fail and every other candidate
succeeds with result `7`. -/
def runABFailCOk : String → String → Except JSError Nat := fun p _ =>
  if p = "openai" then .error errNet
  else if p = "anthropic" then .error errAuth
  else .ok 7

/-- Errors of the concrete two-failure scenario, by provider. -/
def errOf : ModelCandidate → JSError := fun c =>
  if c.provider = "openai" then errNet else errAuth

/-- No provider has configured auth profiles. -/
def noProfiles : String → List String := fun _ => []

/-- No profile is in cooldown. -/
def noCooldown : String → Bool := fun _ => false

/-- Profiles for the cooldown scenario: `openai` has `p1`, `p2`;
every other provider has `q1`. -/
def cooldownProfiles : String → List String := fun p =>
  if p = "openai" then ["p1", "p2"] else ["q1"]

/-- Cooldown predicate for the cooldown scenario: exactly `p1` and `p2`
are cooling down. -/
def cooldownPred : String → Bool := fun id => id == "p1" || id == "p2"

/-- The snapshot held by the read cache in the stale-cache scenario. -/
def cexCachedEntry : SessionEntry := { updatedAt := some 1 }

/-- The entry on disk in the stale-cache scenario. -/
def cexDiskEntry : SessionEntry := { updatedAt := some 2 }

/-- A state whose read cache holds a valid (TTL-fresh, mtime-unchanged)
snapshot that differs from the parsed on-disk content. -/
def cexStoreState : StoreState :=
  { disk := [("k", cexDiskEntry)], diskMtime := some 10,
    cache := some ⟨[("k", cexCachedEntry)], 0, some 10⟩,
    now := 5, ttl := 100, cacheEnabled := true, saves := 0 }

/-- An entry that already has a string `channel` and still carries the
legacy `provider` key. -/
def cexBothEntry : SessionEntry := { channel := some "telegram", provider := some "whatsapp" }

/-- A cache-disabled state whose store file holds `cexBothEntry`. -/
def cexMigrationState : StoreState :=
  { disk := [("k", cexBothEntry)], diskMtime := none, cache := none,
    now := 0, ttl := 0, cacheEnabled := false, saves := 0 }

/-- A session entry whose stored timestamp lies in the future of the
clock used by the update scenario. -/
def futureEntry : SessionEntry := { updatedAt := some 200 }

/-- A cache-disabled state whose store file holds `futureEntry` at `"k"`,
with the clock at `100`. -/
def futureState : StoreState :=
  { disk := [("k", futureEntry)], diskMtime := some 1, cache := none,
    now := 100, ttl := 0, cacheEnabled := false, saves := 0 }

/- ============================================================ -/
/- Helper lemmas                                                -/
/- ============================================================ -/

/-- `skipCache: true` ignores and leaves the cache: the read is the parsed,
migrated disk content. -/
theorem loadSessionStore_skipCache (s : StoreState) :
    loadSessionStore true s = (migrateStore s.disk, s) := rfl

/-- A load touches at most the cache: every other state component is
unchanged. -/
theorem loadSessionStore_state_frame (b : Bool) (s : StoreState) :
    (loadSessionStore b s).2.disk = s.disk ∧ (loadSessionStore b s).2.saves = s.saves ∧
    (loadSessionStore b s).2.now = s.now ∧ (loadSessionStore b s).2.diskMtime = s.diskMtime := by
  unfold loadSessionStore
  dsimp only
  split
  · split
    · simp
    · split <;> simp
  · split <;> simp

/-- Looking up a key in the migrated store migrates the looked-up entry. -/
theorem storeLookup_migrateStore (st : SessionStoreFile) (key : String) :
    storeLookup (migrateStore st) key = (storeLookup st key).map migrateSessionEntry := by
  induction st with
  | nil => rfl
  | cons kv rest ih =>
    by_cases h : kv.1 = key
    · simp [migrateStore, storeLookup, h]
    · simp only [migrateStore, List.map_cons, storeLookup, h, if_false, if_neg h]
      simpa [migrateStore] using ih

/-- Looking up the assigned key after normalize-and-save yields the
normalized assigned entry. -/
theorem storeLookup_normalize_insert (st : SessionStoreFile) (key : String) (v : SessionEntry) :
    storeLookup (normalizeSessionStore (storeInsert st key v)) key =
      some (normalizeSessionEntryDelivery v) := by
  simp [storeInsert, normalizeSessionStore, storeLookup]

/-- The second migration step does not touch `channel`, `provider`,
`groupChannel` or `room`. -/
theorem migrateLastChannel_frame (e : SessionEntry) :
    (migrateLastChannel e).channel = e.channel ∧ (migrateLastChannel e).provider = e.provider ∧
    (migrateLastChannel e).groupChannel = e.groupChannel ∧ (migrateLastChannel e).room = e.room := by
  unfold migrateLastChannel
  split <;> simp

/-- The third migration step does not touch `channel` or `provider`. -/
theorem migrateRoom_frame (e : SessionEntry) :
    (migrateRoom e).channel = e.channel ∧ (migrateRoom e).provider = e.provider := by
  unfold migrateRoom
  split
  · simp
  · split <;> simp

/-- After the third migration step the `room` key is always gone. -/
theorem migrateRoom_room (e : SessionEntry) : (migrateRoom e).room = none := by
  unfold migrateRoom
  split
  · rfl
  · split
    · rfl
    · rename_i h1 h2
      exact Option.eq_none_iff_forall_not_mem.mpr
        (by simpa [Option.isSome_iff_exists] using h2)

/- ============================================================ -/
/- C4                                                           -/
/- ============================================================ -/

/-- C4 counterexample: the claim asserts that at the exact boundary
`updatedAt = now - resetWindow` the entry is NOT fresh; with the spec's own
definition "fresh iff `now - updatedAt <= resetWindow`" the boundary entry
(`updatedAt = 70`, `now = 100`, `resetWindow = 30`) IS fresh. -/
theorem resolveSessionFresh_boundary_cex :
    resolveSessionFresh (some ({ updatedAt := some 70 } : SessionEntry)) 100 30 = true := by
  decide

/-- C4 (amended): `resolveSession` judges an entry fresh iff
`now - updatedAt ≤ resetWindow`; at the boundary `updatedAt = now -
resetWindow` (and at `now - resetWindow + 1`) the entry IS fresh, and at
`updatedAt = now - resetWindow - 1` it is NOT fresh. -/
theorem resolveSessionFresh_window (e : SessionEntry) (u now w : Int)
    (hu : e.updatedAt = some u) :
    (resolveSessionFresh (some e) now w = true ↔ now - u ≤ w) ∧
    (u = now - w → resolveSessionFresh (some e) now w = true) ∧
    (u = now - w + 1 → resolveSessionFresh (some e) now w = true) ∧
    (u = now - w - 1 → resolveSessionFresh (some e) now w = false) := by
  refine ⟨?_, ?_, ?_, ?_⟩ <;>
    simp [resolveSessionFresh, evaluateSessionFreshness, hu] <;> omega

/-- Witness for C4's amended theorem at `now = 100`, `resetWindow = 30`:
`updatedAt = 70` is fresh, `updatedAt = 69` is not. -/
theorem resolveSessionFresh_window_witness :
    resolveSessionFresh (some ({ updatedAt := some 70 } : SessionEntry)) 100 30 = true ∧
    resolveSessionFresh (some ({ updatedAt := some 69 } : SessionEntry)) 100 30 = false :=
  ⟨(resolveSessionFresh_window _ 70 100 30 rfl).2.1 (by norm_num),
   (resolveSessionFresh_window _ 69 100 30 rfl).2.2.2 (by norm_num)⟩

/- ============================================================ -/
/- C8                                                           -/
/- ============================================================ -/

/-- C8: a connection close before settlement (settled and ignoreClose both
unset) rejects with the close error built from the close code, reason and
the diagnostic connection details — for every close code, the "normal"
code 1000 included — and once the promise is settled, no further event
(close, timeout, or late request settlement) changes the outcome or
unsettles it. -/
theorem callGateway_close_before_settle {τ : Type} :
    (∀ (details : String) (timeoutMs : Nat) (s : CallGatewayState τ)
        (code : Nat) (reason : String),
      s.settled = false → s.ignoreClose = false →
      callGatewayStep details timeoutMs s (.close code reason) =
        ⟨true, true, some (.failure (formatCloseError details code reason))⟩) ∧
    (∀ (details : String) (timeoutMs : Nat) (s : CallGatewayState τ) (e : GatewayEvent τ),
      s.settled = true →
      (callGatewayStep details timeoutMs s e).outcome = s.outcome ∧
      (callGatewayStep details timeoutMs s e).settled = true) := by
  constructor
  · intro details timeoutMs s code reason hs hi
    simp [callGatewayStep, stopGateway, hs, hi]
  · intro details timeoutMs s e hs
    cases e <;> simp [callGatewayStep, stopGateway, hs]

/-- Witness for C8: from the initial state, a close with the "normal" code
1000 and an empty reason rejects with the formatted close error; in an
already-resolved state a later close leaves the outcome untouched. -/
theorem callGateway_close_before_settle_witness :
    callGatewayStep "Gateway target: ws://127.0.0.1:18789" 10000
        (initialCallGatewayState Nat) (.close 1000 "") =
      ⟨true, true,
       some (.failure (formatCloseError "Gateway target: ws://127.0.0.1:18789" 1000 ""))⟩ ∧
    (callGatewayStep "Gateway target: ws://127.0.0.1:18789" 10000
        (⟨true, true, some (.value 7)⟩ : CallGatewayState Nat) (.close 1006 "late")).outcome =
      some (.value 7) :=
  ⟨callGateway_close_before_settle.1 _ 10000 _ 1000 "" rfl rfl,
   (callGateway_close_before_settle.2 _ 10000 _ (.close 1006 "late") rfl).1⟩

/-- The first migration step does not touch `groupChannel`, `room`,
`lastChannel` or `lastProvider`. -/
theorem migrateChannel_frame (e : SessionEntry) :
    (migrateChannel e).groupChannel = e.groupChannel ∧ (migrateChannel e).room = e.room ∧
    (migrateChannel e).lastChannel = e.lastChannel ∧
    (migrateChannel e).lastProvider = e.lastProvider := by
  unfold migrateChannel
  split <;> simp

/- ============================================================ -/
/- C3                                                           -/
/- ============================================================ -/

/-- C3 counterexample: the claim asserts that no loaded entry ever carries
a legacy name together with its replacement; loading a store whose entry
already has a string `channel` and also a legacy `provider` keeps BOTH
(the migration only fires when `channel` is absent). -/
theorem loadSessionStore_keeps_channel_and_provider_cex :
    storeLookup (loadSessionStore true cexMigrationState).1 "k" = some cexBothEntry ∧
    cexBothEntry.channel = some "telegram" ∧ cexBothEntry.provider = some "whatsapp" := by
  decide

/-- C3 (amended): every entry of a (disk-read) `loadSessionStore` result is
the migrated image of the stored entry; an entry with legacy `provider` and
no `channel` loads with `channel` set and `provider` removed; an entry with
`room` and no `groupChannel` loads with `groupChannel` set; the `room` key
is always pruned (so `room` never coexists with `groupChannel`) — but an
entry that already has a `channel` keeps a legacy `provider`, so those two
may coexist after load. -/
theorem loadSessionStore_migrates_legacy_fields (s : StoreState) (key : String)
    (e : SessionEntry) (he : storeLookup s.disk key = some e) :
    storeLookup (loadSessionStore true s).1 key = some (migrateSessionEntry e) ∧
    (e.channel = none → e.provider.isSome →
      (migrateSessionEntry e).channel = e.provider ∧
      (migrateSessionEntry e).provider = none) ∧
    (e.groupChannel = none → e.room.isSome →
      (migrateSessionEntry e).groupChannel = e.room) ∧
    (migrateSessionEntry e).room = none := by
  refine ⟨?_, ?_, ?_, migrateRoom_room _⟩
  · rw [loadSessionStore_skipCache]
    simp [storeLookup_migrateStore, he]
  · intro h1 h2
    have hx : migrateChannel e = { e with channel := e.provider, provider := none } := by
      unfold migrateChannel
      rw [if_pos ⟨by simp [h1], h2⟩]
    unfold migrateSessionEntry
    rw [hx]
    constructor
    · rw [(migrateRoom_frame _).1, (migrateLastChannel_frame _).1]
    · rw [(migrateRoom_frame _).2, (migrateLastChannel_frame _).2.1]
  · intro h3 h4
    have hg : (migrateLastChannel (migrateChannel e)).groupChannel = none := by
      rw [(migrateLastChannel_frame _).2.2.1, (migrateChannel_frame _).1, h3]
    have hr : (migrateLastChannel (migrateChannel e)).room = e.room := by
      rw [(migrateLastChannel_frame _).2.2.2, (migrateChannel_frame _).2.1]
    unfold migrateSessionEntry migrateRoom
    rw [if_pos ⟨by simp [hg], by simpa [hr] using h4⟩]
    simpa using hr

/-- Witness for C3's amended theorem: a store holding one legacy-only entry
(`provider` and `room` set, `channel` and `groupChannel` absent) loads with
`channel` and `groupChannel` set and both legacy keys removed. -/
theorem loadSessionStore_migrates_legacy_fields_witness :
    storeLookup
        (loadSessionStore true
          { disk := [("k", { provider := some "whatsapp", room := some "dev" })],
            diskMtime := none, cache := none, now := 0, ttl := 0,
            cacheEnabled := false, saves := 0 }).1 "k" =
      some (migrateSessionEntry { provider := some "whatsapp", room := some "dev" }) ∧
    (migrateSessionEntry
        ({ provider := some "whatsapp", room := some "dev" } : SessionEntry)).channel =
      some "whatsapp" ∧
    (migrateSessionEntry
        ({ provider := some "whatsapp", room := some "dev" } : SessionEntry)).provider = none ∧
    (migrateSessionEntry
        ({ provider := some "whatsapp", room := some "dev" } : SessionEntry)).groupChannel =
      some "dev" ∧
    (migrateSessionEntry
        ({ provider := some "whatsapp", room := some "dev" } : SessionEntry)).room = none := by
  have h := loadSessionStore_migrates_legacy_fields
    { disk := [("k", { provider := some "whatsapp", room := some "dev" })],
      diskMtime := none, cache := none, now := 0, ttl := 0,
      cacheEnabled := false, saves := 0 }
    "k" { provider := some "whatsapp", room := some "dev" } (by decide)
  refine ⟨h.1, ?_, ?_, ?_, h.2.2.2⟩
  · exact (h.2.1 rfl (by decide)).1.trans rfl
  · exact (h.2.1 rfl (by decide)).2
  · exact (h.2.2.1 rfl (by decide)).trans rfl

/- ============================================================ -/
/- C1                                                           -/
/- ============================================================ -/

/-- C1 counterexample: at a state whose read cache holds a valid
(TTL-fresh, mtime-unchanged) snapshot differing from the disk content,
`updateSessionStoreEntry` bases its read-mutate-write cycle on the CACHED
entry, not on the cache-bypassing re-read: the claim that the locked
mutation operations never use a cached snapshot fails. -/
theorem updateSessionStoreEntry_cached_basis_cex :
    (updateSessionStoreEntry cexStoreState "k" (fun _ => none)).1 = some cexCachedEntry ∧
    storeLookup (loadSessionStore true cexStoreState).1 "k" = some cexDiskEntry ∧
    cexCachedEntry ≠ cexDiskEntry := by
  decide

/-- C1 (amended): under the lock, `updateSessionStore` always bases the
read-mutate-write cycle on the cache-bypassing re-read (`skipCache: true`),
while `updateSessionStoreEntry` re-reads through the read cache
(`loadSessionStore` with no options), so a valid cached snapshot can be the
basis of its cycle. -/
theorem updateSessionStore_rereads_bypassing_cache :
    ∀ (s : StoreState) (key : String),
      (updateSessionStore s (fun st => (st, st))).1 = (loadSessionStore true s).1 ∧
      (updateSessionStoreEntry s key (fun _ => none)).1 =
        storeLookup (loadSessionStore false s).1 key := by
  intro s key
  refine ⟨rfl, ?_⟩
  rcases hload : loadSessionStore false s with ⟨st, s1⟩
  unfold updateSessionStoreEntry
  rw [hload]
  cases h : storeLookup st key <;> simp [h]

/- ============================================================ -/
/- C9                                                           -/
/- ============================================================ -/

/-- C9: when the session key exists and the updater returns `null`,
`updateSessionStoreEntry` returns the existing entry unchanged and performs
no save — the on-disk store and the write counter are untouched (so no
save-triggered cache invalidation happens either); only a non-null patch
triggers the merge and a persist of the merged entry. -/
theorem updateSessionStoreEntry_null_patch_frame (s : StoreState) (key : String)
    (update : SessionEntry → Option SessionPatch) (e : SessionEntry)
    (he : storeLookup (loadSessionStore false s).1 key = some e) :
    (update e = none →
      updateSessionStoreEntry s key update = (some e, (loadSessionStore false s).2) ∧
      (updateSessionStoreEntry s key update).2.disk = s.disk ∧
      (updateSessionStoreEntry s key update).2.saves = s.saves) ∧
    (∀ p, update e = some p →
      (updateSessionStoreEntry s key update).2.saves = s.saves + 1 ∧
      storeLookup (updateSessionStoreEntry s key update).2.disk key =
        some (normalizeSessionEntryDelivery (mergeSessionEntry (some e) p))) := by
  constructor
  · intro hnone
    have hres : updateSessionStoreEntry s key update = (some e, (loadSessionStore false s).2) := by
      unfold updateSessionStoreEntry
      rcases hload : loadSessionStore false s with ⟨st, s1⟩
      rw [hload] at he
      simp [he, hnone]
    refine ⟨hres, ?_, ?_⟩
    · rw [hres]
      exact (loadSessionStore_state_frame false s).1
    · rw [hres]
      exact (loadSessionStore_state_frame false s).2.1
  · intro p hp
    have hres : updateSessionStoreEntry s key update =
        (some (mergeSessionEntry (some e) p),
         saveSessionStoreUnlocked (loadSessionStore false s).2
           (storeInsert (loadSessionStore false s).1 key (mergeSessionEntry (some e) p))) := by
      unfold updateSessionStoreEntry
      rcases hload : loadSessionStore false s with ⟨st, s1⟩
      rw [hload] at he
      simp [he, hp]
    rw [hres]
    constructor
    · simp only [saveSessionStoreUnlocked]
      rw [(loadSessionStore_state_frame false s).2.1]
    · exact storeLookup_normalize_insert _ _ _

/-- Witness for C9: on a concrete store holding `futureEntry` at `"k"`, a
`null`-returning updater leaves the disk and the write counter untouched
and returns the entry, while a real patch bumps the write counter. -/
theorem updateSessionStoreEntry_null_patch_frame_witness :
    updateSessionStoreEntry futureState "k" (fun _ => none) =
      (some futureEntry, (loadSessionStore false futureState).2) ∧
    (updateSessionStoreEntry futureState "k" (fun _ => none)).2.saves = 0 ∧
    (updateSessionStoreEntry futureState "k"
        (fun _ => some { updatedAt := some 300 })).2.saves = 1 :=
  ⟨((updateSessionStoreEntry_null_patch_frame futureState "k" (fun _ => none) futureEntry
      (by decide)).1 rfl).1,
   ((updateSessionStoreEntry_null_patch_frame futureState "k" (fun _ => none) futureEntry
      (by decide)).1 rfl).2.2,
   ((updateSessionStoreEntry_null_patch_frame futureState "k"
      (fun _ => some { updatedAt := some 300 }) futureEntry
      (by decide)).2 { updatedAt := some 300 } rfl).1⟩

/- ============================================================ -/
/- C10                                                          -/
/- ============================================================ -/

/-- C10: on an existing entry, `updateLastRoute` writes
`updatedAt = max(previous updatedAt, now)`: the returned entry carries that
timestamp, the persisted entry is the normalized returned entry (whose
`updatedAt` is unchanged by delivery normalization), and the new timestamp
is never below the previous one — even when the stored timestamp lies in
the future. -/
theorem updateLastRoute_updatedAt_monotone (s : StoreState) (key : String)
    (explicitDc : Option DeliveryContext) (inline : DeliveryContext)
    (metaPatch : Option SessionMetaPatch) (e : SessionEntry)
    (he : storeLookup (loadSessionStore false s).1 key = some e) :
    (updateLastRoute s key explicitDc inline metaPatch).1.updatedAt =
      some (max (e.updatedAt.getD 0) s.now) ∧
    storeLookup (updateLastRoute s key explicitDc inline metaPatch).2.disk key =
      some (normalizeSessionEntryDelivery (updateLastRoute s key explicitDc inline metaPatch).1) ∧
    e.updatedAt.getD 0 ≤ (updateLastRoute s key explicitDc inline metaPatch).1.updatedAt.getD 0 := by
  have hnow := (loadSessionStore_state_frame false s).2.2.1
  rcases hload : loadSessionStore false s with ⟨st, s1⟩
  rw [hload] at he hnow
  have hnow1 : s1.now = s.now := hnow
  have hfst : (updateLastRoute s key explicitDc inline metaPatch).1.updatedAt =
      some (max (e.updatedAt.getD 0) s.now) := by
    unfold updateLastRoute
    rw [hload]
    cases metaPatch <;> cases hu : e.updatedAt <;>
      simp [he, hu, mergeSessionEntry, applySessionMetaPatch, hnow1]
  refine ⟨hfst, ?_, ?_⟩
  · unfold updateLastRoute
    rw [hload]
    simp only [he, saveSessionStoreUnlocked]
    exact storeLookup_normalize_insert _ _ _
  · rw [hfst]
    simp [le_max_left]

/-- Witness for C10: with the stored timestamp `200` in the future of the
clock `100`, the written `updatedAt` is `max 200 100` and does not
decrease. -/
theorem updateLastRoute_updatedAt_monotone_witness :
    (updateLastRoute futureState "k" none {} none).1.updatedAt =
      some (max (futureEntry.updatedAt.getD 0) futureState.now) ∧
    futureEntry.updatedAt.getD 0 ≤
      (updateLastRoute futureState "k" none {} none).1.updatedAt.getD 0 :=
  ⟨(updateLastRoute_updatedAt_monotone futureState "k" none {} none futureEntry (by decide)).1,
   (updateLastRoute_updatedAt_monotone futureState "k" none {} none futureEntry (by decide)).2.2⟩

/-- A prefix of candidates that all fail with classified failover-eligible
errors is traversed completely: each records its described attempt, sets
the last error, and logs its `run` invocation. -/
theorem fallbackLoop_pre_failures {ρ : Type} (A : Bool) (P : String → List String)
    (C : String → Bool) (R : String → String → Except JSError ρ) (total : Nat)
    (f : ModelCandidate → JSError) :
    ∀ (pre tail : List ModelCandidate) (attempts : List FallbackAttempt)
      (lastError : Option JSError) (calls : List ModelCandidate),
      (∀ a ∈ pre, (A && allProfilesCoolingDown P C a.provider) = false ∧
        R a.provider a.model = .error (f a) ∧ shouldRethrowAbort (f a) = false ∧
        ((f a).isFailover || (f a).coercible) = true) →
      fallbackLoop A P C R total (pre ++ tail) attempts lastError calls =
        fallbackLoop A P C R total tail
          (attempts ++ pre.map (fun a => describeFailoverAttempt a (f a)))
          (match pre.getLast? with
           | some a => some (f a)
           | none => lastError)
          (calls ++ pre) := by
  intro pre
  induction pre with
  | nil =>
    intro tail attempts lastError calls h
    simp
  | cons a rest ih =>
    intro tail attempts lastError calls h
    have ha := h a (List.mem_cons_self a rest)
    have hrest : ∀ b ∈ rest, (A && allProfilesCoolingDown P C b.provider) = false ∧
        R b.provider b.model = .error (f b) ∧ shouldRethrowAbort (f b) = false ∧
        ((f b).isFailover || (f b).coercible) = true :=
      fun b hb => h b (List.mem_cons_of_mem a hb)
    simp only [List.cons_append, fallbackLoop, ha.1, Bool.false_eq_true, if_false,
      ha.2.1, ha.2.2.1, coerceToFailoverError, ha.2.2.2, if_true]
    rw [show rest.append tail = rest ++ tail from rfl,
      ih tail (attempts ++ [describeFailoverAttempt a (f a)]) (some (f a)) (calls ++ [a]) hrest]
    cases rest with
    | nil => simp
    | cons b t =>
      simp only [List.getLast?_cons_cons, List.map_cons, List.cons_append, List.append_assoc,
        List.singleton_append]
      cases hbt : (b :: t).getLast? with
      | none =>
        have hs : (b :: t).getLast?.isSome = true := by
          rw [List.getLast?_isSome]
          simp
        rw [hbt] at hs
        simp at hs
      | some x => rfl

/- ============================================================ -/
/- C5                                                           -/
/- ============================================================ -/

/-- C5: candidates are tried strictly in order; at the first candidate whose
`run` succeeds (after a prefix of classified failover-eligible failures)
the engine returns immediately with that candidate's result, provider,
model and the attempts recorded so far (one per failed predecessor), and
`run` is never invoked for any remaining candidate. -/
theorem runWithModelFallback_first_success {ρ : Type} (A : Bool)
    (P : String → List String) (C : String → Bool)
    (R : String → String → Except JSError ρ)
    (pre : List ModelCandidate) (c : ModelCandidate) (post : List ModelCandidate)
    (f : ModelCandidate → JSError) (v : ρ)
    (hpre : ∀ a ∈ pre, (A && allProfilesCoolingDown P C a.provider) = false ∧
      R a.provider a.model = .error (f a) ∧ shouldRethrowAbort (f a) = false ∧
      ((f a).isFailover || (f a).coercible) = true)
    (hc : (A && allProfilesCoolingDown P C c.provider) = false)
    (hrun : R c.provider c.model = .ok v) :
    runWithModelFallback A P C R (pre ++ c :: post) =
      ⟨.ok v c.provider c.model (pre.map (fun a => describeFailoverAttempt a (f a))),
       pre ++ [c], pre.map (fun a => describeFailoverAttempt a (f a))⟩ := by
  unfold runWithModelFallback
  rw [fallbackLoop_pre_failures A P C R (pre ++ c :: post).length f pre (c :: post) [] none []
    hpre]
  simp [fallbackLoop, hc, hrun]

/-- Witness for C5: candidates `[A, B, C]` where A and B fail with
failover-eligible errors and C succeeds — the result uses C, the attempts
list has length 2, and exactly A, B, C were invoked. -/
theorem runWithModelFallback_first_success_witness :
    runWithModelFallback false noProfiles noCooldown runABFailCOk [candA, candB, candC] =
      ⟨.ok 7 "google" "gemini"
        [describeFailoverAttempt candA errNet, describeFailoverAttempt candB errAuth],
       [candA, candB, candC],
       [describeFailoverAttempt candA errNet, describeFailoverAttempt candB errAuth]⟩ := by
  have h := runWithModelFallback_first_success false noProfiles noCooldown runABFailCOk
    [candA, candB] candC [] errOf 7 (by decide) (by decide) (by decide)
  exact h.trans (by decide)

/- ============================================================ -/
/- C2                                                           -/
/- ============================================================ -/

/-- C2: on exhaustion with exactly one (run-failure) attempt, the engine
rethrows that candidate's original classified error itself — not an
aggregate, not a copy; with two or more failing candidates it throws one
aggregate error whose message joins `"provider/model: message (reason)"`
per attempt with `" | "`, chaining the last underlying error as `cause`. -/
theorem runWithModelFallback_exhaustion_errors {ρ : Type} :
    (∀ (A : Bool) (P : String → List String) (C : String → Bool)
        (R : String → String → Except JSError ρ) (c : ModelCandidate) (e : JSError),
      (A && allProfilesCoolingDown P C c.provider) = false →
      R c.provider c.model = .error e →
      shouldRethrowAbort e = false → (e.isFailover || e.coercible) = true →
      runWithModelFallback A P C R [c] =
        ⟨.thrown e, [c], [describeFailoverAttempt c e]⟩) ∧
    (∀ (A : Bool) (P : String → List String) (C : String → Bool)
        (R : String → String → Except JSError ρ) (cs : List ModelCandidate)
        (f : ModelCandidate → JSError),
      2 ≤ cs.length →
      (∀ a ∈ cs, (A && allProfilesCoolingDown P C a.provider) = false ∧
        R a.provider a.model = .error (f a) ∧ shouldRethrowAbort (f a) = false ∧
        ((f a).isFailover || (f a).coercible) = true) →
      runWithModelFallback A P C R cs =
        ⟨.aggregate
          ("All models failed (" ++ toString cs.length ++ "): " ++
            String.intercalate " | "
              (cs.map (fun a => formatAttempt (describeFailoverAttempt a (f a)))))
          (cs.getLast?.map f),
         cs, cs.map (fun a => describeFailoverAttempt a (f a))⟩) := by
  constructor
  · intro A P C R c e h1 h2 h3 h4
    unfold runWithModelFallback
    simp [fallbackLoop, h1, h2, h3, coerceToFailoverError, h4, exhaustFallback]
  · intro A P C R cs f hlen hall
    unfold runWithModelFallback
    have h := fallbackLoop_pre_failures A P C R cs.length f cs [] [] none [] hall
    rw [List.append_nil] at h
    rw [h]
    obtain ⟨last, hlast⟩ : ∃ a, cs.getLast? = some a := by
      rcases cs with _ | ⟨a, t⟩
      · simp at hlen
      · exact Option.isSome_iff_exists.mp (by simp)
    have hne : ¬cs.length = 0 := by omega
    have hgt : ¬cs.length ≤ 1 := by omega
    simp [fallbackLoop, exhaustFallback, hlast, hne, hgt, aggregateMessage, List.map_map,
      Function.comp_def]

/-- Witness for C2: a single failing candidate rethrows its original error;
two failing candidates raise the aggregate with the joined message and the
last error as cause. -/
theorem runWithModelFallback_exhaustion_errors_witness :
    runWithModelFallback false noProfiles noCooldown
        (fun _ _ => (.error errNet : Except JSError Nat)) [candA] =
      ⟨.thrown errNet, [candA], [describeFailoverAttempt candA errNet]⟩ ∧
    runWithModelFallback false noProfiles noCooldown runABFailCOk [candA, candB] =
      ⟨.aggregate
        "All models failed (2): openai/gpt: boom (network) | anthropic/claude: denied (auth)"
        (some errAuth),
       [candA, candB],
       [describeFailoverAttempt candA errNet, describeFailoverAttempt candB errAuth]⟩ := by
  constructor
  · exact runWithModelFallback_exhaustion_errors.1 false noProfiles noCooldown _ candA errNet
      (by decide) rfl (by decide) (by decide)
  · have h := runWithModelFallback_exhaustion_errors.2 false noProfiles noCooldown runABFailCOk
      [candA, candB] errOf (by decide) (by decide)
    exact h.trans (by decide)

/- ============================================================ -/
/- C6                                                           -/
/- ============================================================ -/

/-- C6: an explicit cancellation — an `AbortError`-named error that is not
a failover error and not a timeout — is rethrown immediately: no attempt is
recorded and no further candidate is tried; a timeout error, by contrast,
is not treated as cancellation and (when classifiable) advances to the next
candidate. -/
theorem runWithModelFallback_abort_vs_timeout {ρ : Type} :
    (∀ (A : Bool) (P : String → List String) (C : String → Bool)
        (R : String → String → Except JSError ρ)
        (c : ModelCandidate) (rest : List ModelCandidate) (e : JSError),
      (A && allProfilesCoolingDown P C c.provider) = false →
      R c.provider c.model = .error e →
      e.name = "AbortError" → e.isFailover = false → e.isTimeout = false →
      runWithModelFallback A P C R (c :: rest) = ⟨.thrown e, [c], []⟩) ∧
    (∀ (A : Bool) (P : String → List String) (C : String → Bool)
        (R : String → String → Except JSError ρ)
        (c d : ModelCandidate) (rest : List ModelCandidate) (e : JSError) (v : ρ),
      (A && allProfilesCoolingDown P C c.provider) = false →
      (A && allProfilesCoolingDown P C d.provider) = false →
      R c.provider c.model = .error e →
      e.isTimeout = true → (e.isFailover || e.coercible) = true →
      R d.provider d.model = .ok v →
      runWithModelFallback A P C R (c :: d :: rest) =
        ⟨.ok v d.provider d.model [describeFailoverAttempt c e], [c, d],
         [describeFailoverAttempt c e]⟩) := by
  constructor
  · intro A P C R c rest e h1 h2 hname hfail htime
    unfold runWithModelFallback
    simp [fallbackLoop, h1, h2, shouldRethrowAbort, isAbortError, hname, hfail, htime]
  · intro A P C R c d rest e v h1 h2 h3 htime helig hrun
    unfold runWithModelFallback
    simp [fallbackLoop, h1, h2, h3, shouldRethrowAbort, isAbortError, htime,
      coerceToFailoverError, helig, hrun]

/-- Witness for C6: an `AbortError` cancellation on the first of two
candidates rethrows immediately with no attempt and no second invocation;
an `AbortError`-named timeout instead records the attempt and advances to
the second candidate, which succeeds. -/
theorem runWithModelFallback_abort_vs_timeout_witness :
    runWithModelFallback false noProfiles noCooldown
        (fun _ _ => (.error errAbort : Except JSError Nat)) [candA, candB] =
      ⟨.thrown errAbort, [candA], []⟩ ∧
    runWithModelFallback false noProfiles noCooldown
        (fun p _ => if p = "openai" then .error errTimeoutAbort else (.ok 7 : Except JSError Nat))
        [candA, candB] =
      ⟨.ok 7 "anthropic" "claude" [describeFailoverAttempt candA errTimeoutAbort],
       [candA, candB], [describeFailoverAttempt candA errTimeoutAbort]⟩ := by
  constructor
  · exact runWithModelFallback_abort_vs_timeout.1 false noProfiles noCooldown _ candA [candB]
      errAbort (by decide) rfl rfl rfl rfl
  · have h := runWithModelFallback_abort_vs_timeout.2 false noProfiles noCooldown
      (fun p _ => if p = "openai" then .error errTimeoutAbort else (.ok 7 : Except JSError Nat))
      candA candB [] errTimeoutAbort 7 (by decide) (by decide) (by decide) rfl (by decide)
      (by decide)
    exact h.trans (by decide)

/- ============================================================ -/
/- C7                                                           -/
/- ============================================================ -/

/-- C7: a candidate whose provider has configured auth profiles, all in
cooldown, is skipped — a synthetic cooldown attempt with reason
`rate_limit` is recorded and `run` is never invoked for it — and the next
candidate with an available profile is invoked normally. -/
theorem runWithModelFallback_cooldown_skip {ρ : Type} (P : String → List String)
    (C : String → Bool) (R : String → String → Except JSError ρ)
    (a d : ModelCandidate) (rest : List ModelCandidate) (v : ρ)
    (hne : (P a.provider).isEmpty = false)
    (hcool : (P a.provider).all C = true)
    (hd : allProfilesCoolingDown P C d.provider = false)
    (hrun : R d.provider d.model = .ok v) :
    runWithModelFallback true P C R (a :: d :: rest) =
      ⟨.ok v d.provider d.model [cooldownAttempt a], [d], [cooldownAttempt a]⟩ ∧
    (cooldownAttempt a).reason = some "rate_limit" := by
  refine ⟨?_, rfl⟩
  unfold runWithModelFallback
  have hA : (true && allProfilesCoolingDown P C a.provider) = true := by
    simp [allProfilesCoolingDown, hne, hcool]
  simp [fallbackLoop, hA, hd, hrun]

/-- Witness for C7: `candA`'s provider has profiles `p1`, `p2`, both in
cooldown, so `candA` is skipped with a synthetic `rate_limit` attempt and
only `candC` (whose profile `q1` is available) is invoked. -/
theorem runWithModelFallback_cooldown_skip_witness :
    runWithModelFallback true cooldownProfiles cooldownPred runABFailCOk [candA, candC] =
      ⟨.ok 7 "google" "gemini" [cooldownAttempt candA], [candC], [cooldownAttempt candA]⟩ ∧
    (cooldownAttempt candA).reason = some "rate_limit" := by
  have h := runWithModelFallback_cooldown_skip cooldownProfiles cooldownPred runABFailCOk
    candA candC [] 7 (by decide) (by decide) (by decide) (by decide)
  exact ⟨h.1.trans (by decide), h.2⟩
